import Mathlib

/-!
Verification development for the privacy-policy analyzer Lambda
(`src/api/lambda_function.py`).  The Python pipeline is shallowly embedded:
JSON documents become the inductive type `Json`, `json.loads` becomes the
executable parser `json_loads`, Python's fallible attribute accesses become
`Except String` computations, and the handler `lambda_handler` becomes a pure
function of the event together with an oracle standing for the OpenAI
chat-completion client.  The list of `CompletionRequest`s returned alongside
the response records every invocation of the completion service.
-/

/-- JSON values as produced by Python's `json.loads`.  Numbers keep their
source lexeme (no claim depends on numeric value, only on shape and
truthiness); objects keep their entries in textual order, with lookups
resolving duplicate keys to the last occurrence, as a Python `dict` does. -/
inductive Json where
  | null : Json
  | bool (b : Bool) : Json
  | num (lexeme : String) : Json
  | str (s : String) : Json
  | arr (items : List Json) : Json
  | obj (entries : List (String × Json)) : Json
deriving Repr

/-- Association-list lookup with last-occurrence-wins semantics, matching how
`json.loads` builds a Python `dict` (later duplicate keys overwrite). -/
def assocLast : List (String × Json) → String → Option Json
  | [], _ => none
  | (k', v) :: rest, k =>
    match assocLast rest k with
    | some r => some r
    | none => if k' = k then some v else none

/-- Key lookup on a JSON value: `some` only on objects with the key present. -/
def Json.lookup : Json → String → Option Json
  | .obj kvs, k => assocLast kvs k
  | _, _ => none

/-- Whether a JSON value is an object (a Python `dict`). -/
def Json.isObj : Json → Bool
  | .obj _ => true
  | _ => false

/-- JSON whitespace characters (RFC 8259 / Python `json` lexer). -/
def isJsonWs (c : Char) : Bool :=
  c == ' ' || c == '\t' || c == '\n' || c == '\r'

/-- Skip leading JSON whitespace. -/
def skipWs (cs : List Char) : List Char := cs.dropWhile isJsonWs

/-- Value of a hexadecimal digit, for `\uXXXX` escapes. -/
def hexDigitVal (c : Char) : Option Nat :=
  if '0' ≤ c ∧ c ≤ '9' then some (c.toNat - '0'.toNat)
  else if 'a' ≤ c ∧ c ≤ 'f' then some (c.toNat - 'a'.toNat + 10)
  else if 'A' ≤ c ∧ c ≤ 'F' then some (c.toNat - 'A'.toNat + 10)
  else none

/-- Single-character JSON string escapes. -/
def escChar (c : Char) : Option Char :=
  if c = '"' then some '"'
  else if c = '\\' then some '\\'
  else if c = '/' then some '/'
  else if c = 'b' then some (Char.ofNat 8)
  else if c = 'f' then some (Char.ofNat 12)
  else if c = 'n' then some '\n'
  else if c = 'r' then some '\r'
  else if c = 't' then some '\t'
  else none

/-- Lex the body of a JSON string (the opening quote already consumed),
returning the decoded string and the remaining input. -/
def lexStr (acc : List Char) : List Char → Except String (String × List Char)
  | [] => .error "Unterminated string"
  | '"' :: r => .ok (⟨acc.reverse⟩, r)
  | '\\' :: 'u' :: a :: b :: c :: d :: r =>
    match hexDigitVal a, hexDigitVal b, hexDigitVal c, hexDigitVal d with
    | some x, some y, some z, some w =>
      lexStr (Char.ofNat (((x * 16 + y) * 16 + z) * 16 + w) :: acc) r
    | _, _, _, _ => .error "Invalid hex escape"
  | '\\' :: e :: r =>
    match escChar e with
    | some ch => lexStr (ch :: acc) r
    | none => .error "Invalid escape"
  | ['\\'] => .error "Unterminated string"
  | c :: r =>
    if c.toNat < 32 then .error "Invalid control character"
    else lexStr (c :: acc) r

/-- Lex an optional exponent part of a JSON number onto the mantissa lexeme. -/
def lexExp (mant : List Char) (cs : List Char) : Except String (String × List Char) :=
  match cs with
  | e :: r =>
    if e = 'e' ∨ e = 'E' then
      let (sgn, r1) :=
        match r with
        | '+' :: r2 => (['+'], r2)
        | '-' :: r2 => (['-'], r2)
        | _ => (([] : List Char), r)
      let ds := r1.takeWhile Char.isDigit
      if ds.isEmpty then .error "Expecting digits in exponent"
      else .ok (⟨mant ++ e :: (sgn ++ ds)⟩, r1.dropWhile Char.isDigit)
    else .ok (⟨mant⟩, cs)
  | [] => .ok (⟨mant⟩, [])

/-- Lex an optional fraction part of a JSON number, then the exponent. -/
def lexFrac (intPart : List Char) (cs : List Char) : Except String (String × List Char) :=
  match cs with
  | '.' :: r =>
    let ds := r.takeWhile Char.isDigit
    if ds.isEmpty then .error "Expecting digits after decimal point"
    else lexExp (intPart ++ '.' :: ds) (r.dropWhile Char.isDigit)
  | _ => lexExp intPart cs

/-- Lex a JSON number beginning at `cs` (first char is `-` or a digit). -/
def lexNum (cs : List Char) : Except String (String × List Char) :=
  let (sgn, cs1) :=
    match cs with
    | '-' :: r => ((['-'] : List Char), r)
    | _ => (([] : List Char), cs)
  match cs1 with
  | [] => .error "Expecting value"
  | c :: r =>
    if c = '0' then lexFrac (sgn ++ ['0']) r
    else if c.isDigit then
      lexFrac (sgn ++ (c :: r).takeWhile Char.isDigit) ((c :: r).dropWhile Char.isDigit)
    else .error "Expecting value"

/-- Match a fixed literal tail (for `null`, `true`, `false`, `NaN`, `Infinity`). -/
def expectLit (lit : List Char) (cs : List Char) (v : Json) : Except String (Json × List Char) :=
  if cs.take lit.length = lit then .ok (v, cs.drop lit.length) else .error "Expecting value"

mutual

/-- Recursive-descent JSON value parser, a model of Python's `json.loads`
scanner.  `fuel` only bounds recursion depth; `json_loads` supplies enough for
any input. -/
def parseVal : Nat → List Char → Except String (Json × List Char)
  | 0, _ => .error "Too deeply nested"
  | fuel + 1, cs =>
    match skipWs cs with
    | [] => .error "Expecting value"
    | 'n' :: rest => expectLit ['u', 'l', 'l'] rest Json.null
    | 't' :: rest => expectLit ['r', 'u', 'e'] rest (Json.bool true)
    | 'f' :: rest => expectLit ['a', 'l', 's', 'e'] rest (Json.bool false)
    | 'N' :: rest => expectLit ['a', 'N'] rest (Json.num "NaN")
    | 'I' :: rest =>
      expectLit ['n', 'f', 'i', 'n', 'i', 't', 'y'] rest (Json.num "Infinity")
    | '"' :: rest =>
      match lexStr [] rest with
      | .error e => .error e
      | .ok (s, r) => .ok (Json.str s, r)
    | '[' :: rest =>
      match skipWs rest with
      | ']' :: r2 => .ok (Json.arr [], r2)
      | r2 =>
        match parseArrItems fuel r2 with
        | .error e => .error e
        | .ok (vs, r3) => .ok (Json.arr vs, r3)
    | '{' :: rest =>
      match skipWs rest with
      | '}' :: r2 => .ok (Json.obj [], r2)
      | r2 =>
        match parseObjItems fuel r2 with
        | .error e => .error e
        | .ok (kvs, r3) => .ok (Json.obj kvs, r3)
    | '-' :: 'I' :: rest =>
      expectLit ['n', 'f', 'i', 'n', 'i', 't', 'y'] rest (Json.num "-Infinity")
    | c :: rest =>
      if c = '-' ∨ c.isDigit then
        match lexNum (c :: rest) with
        | .error e => .error e
        | .ok (lx, r) => .ok (Json.num lx, r)
      else .error "Expecting value"

/-- Parse the comma-separated items of a non-empty JSON array, consuming the
closing bracket. -/
def parseArrItems : Nat → List Char → Except String (List Json × List Char)
  | 0, _ => .error "Too deeply nested"
  | fuel + 1, cs =>
    match parseVal fuel cs with
    | .error e => .error e
    | .ok (v, rest) =>
      match skipWs rest with
      | ',' :: r2 =>
        match parseArrItems fuel r2 with
        | .error e => .error e
        | .ok (vs, r3) => .ok (v :: vs, r3)
      | ']' :: r2 => .ok ([v], r2)
      | _ => .error "Expecting delimiter in array"

/-- Parse the comma-separated entries of a non-empty JSON object, consuming
the closing brace. -/
def parseObjItems : Nat → List Char → Except String (List (String × Json) × List Char)
  | 0, _ => .error "Too deeply nested"
  | fuel + 1, cs =>
    match skipWs cs with
    | '"' :: rest =>
      match lexStr [] rest with
      | .error e => .error e
      | .ok (k, r1) =>
        match skipWs r1 with
        | ':' :: r2 =>
          match parseVal fuel r2 with
          | .error e => .error e
          | .ok (v, r3) =>
            match skipWs r3 with
            | ',' :: r4 =>
              match parseObjItems fuel r4 with
              | .error e => .error e
              | .ok (kvs, r5) => .ok ((k, v) :: kvs, r5)
            | '}' :: r4 => .ok ([(k, v)], r4)
            | _ => .error "Expecting delimiter in object"
        | _ => .error "Expecting colon"
    | _ => .error "Expecting property name"

end

/-- Model of Python's `json.loads`: parse one JSON value and require only
whitespace to remain. -/
def json_loads (s : String) : Except String Json :=
  match parseVal (s.data.length + 1) s.data with
  | .error e => .error e
  | .ok (v, rest) => if (skipWs rest).isEmpty then .ok v else .error "Extra data"

/-- Python truthiness of a JSON-decoded value (`None`, `False`, `0`, `""`,
`[]`, `{}` are falsy).  For numbers the lexeme is zero iff every mantissa
digit is `0`. -/
def pyTruthy : Json → Bool
  | .null => false
  | .bool b => b
  | .num lexeme =>
    (lexeme.data.takeWhile (fun c => c != 'e' && c != 'E')).any
      (fun c => c.isDigit && c != '0')
  | .str s => s != ""
  | .arr items => !items.isEmpty
  | .obj entries => !entries.isEmpty

/-- Characters removed by Python's `str.strip()` (ASCII whitespace). -/
def isPyWs (c : Char) : Bool :=
  c == ' ' || c == '\t' || c == '\n' || c == '\r' || c == '\x0b' || c == '\x0c'

/-- Model of Python's `str.strip()`. -/
def pyStrip (s : String) : String :=
  ⟨((s.data.dropWhile isPyWs).reverse.dropWhile isPyWs).reverse⟩

/-- Model of Python's `value.get(key, default)`: succeeds on a `dict`
(JSON object), raises `AttributeError` on anything else. -/
def pyGet (j : Json) (k : String) (d : Json) : Except String Json :=
  match j with
  | .obj kvs => .ok ((assocLast kvs k).getD d)
  | _ => .error "AttributeError: object has no attribute get"

/-- A chat message, the unit of the MessageSequence sent to the completion
service. -/
structure Message where
  role : String
  content : String
deriving Repr, DecidableEq

/-- The delimiter wrapping untrusted policy text inside the user message. -/
def delimiter : String := "####"

/-- The rubric system message of `create_analysis_prompt`, with the
`delimiter` interpolation performed and `\x7b\x7b`/`\x7d\x7d` escapes
resolved, exactly as Python builds the f-string. -/
def system_message : String := "
    You will be given privacy policy text inside #### characters.

    Analyze ONLY the text inside the delimiters.
    If something is not directly stated, output: \"Not specified\".

    Your analysis MUST follow NIST Privacy Framework (v1.0) ideas of privacy risk,
    but use the following **conservative** rules so that not every policy is rated High:

    DATA COLLECTION SEVERITY (what data is collected):
    - High: The policy clearly collects multiple highly sensitive elements
      (e.g., health + biometrics + precise location + detailed behavioral tracking across
      sites/apps, or sells/uses them for profiling), OR explicitly combines many data
      sources for extensive profiling.
    - Medium: The policy collects some sensitive data (e.g., financial, basic health,
      or precise location) OR a broad mix of contact, usage, and tracking data typical
      for large online services or banks.
    - Low: Only minimal, non-sensitive data (e.g., email, basic account info) and
      no strong tracking, profiling, biometrics, or health data.

    DATA SHARING SEVERITY (who receives data):
    - High: The policy clearly says data may be sold, rented, or shared broadly for
      advertising/behavioral profiling, OR shared with many unrelated third parties
      beyond what is reasonably necessary (e.g., vague sharing with \"partners\" for
      marketing, data brokers, etc.).
    - Medium: Data is shared with service providers, affiliates, regulators, payment
      networks, or other entities necessary to provide the service, prevent fraud, or
      comply with law, but no explicit \"selling\" or broad advertising sale of personal data.
    - Low: No external sharing is mentioned, or sharing is strictly internal to the same
      organization.

    DATA RETENTION SEVERITY (how long it is kept):
    - High: The policy clearly suggests indefinite retention (e.g., \"as long as we choose\"
      or no meaningful limits) for most data categories.
    - Medium: Retention is described in general or vague terms (e.g., \"as long as needed
      to provide services or meet legal obligations\") without clear numeric limits.
    - Low: Clear numeric retention limits are given (e.g., \"kept for 2 years then deleted/
      anonymized\") for most data categories.

    OVERALL PRIVACY RISK (user-facing risk score):
    - High: At least TWO of the three categories (data_collecting, data_sharing,
      data_retention) are rated High.
    - Medium: Any other combination that includes at least one Medium, and no more than
      one High.
    - Low: All three categories are Low.

    If you are unsure between Medium and High, choose MEDIUM.
    If you are unsure between Medium and Low, choose MEDIUM.

    Your output MUST be a single valid JSON object with this structure:

    \x7b
        \"data_collecting\": \x7b
            \"details\": \"Very short summary (max 100 words) of the types of data explicitly collected. If none stated, write \x27Not specified\x27.\",
            \"severity\": \"Low\" or \"Medium\" or \"High\"
        \x7d,
        \"data_sharing\": \x7b
            \"details\": \"Very short summary (max 100 words) of who the data is shared with, based ONLY on what is explicitly written. If not stated, write \x27Not specified\x27.\",
            \"severity\": \"Low\" or \"Medium\" or \"High\"
        \x7d,
        \"data_retention\": \x7b
            \"details\": \"State ONLY the retention period explicitly written in the text. If vague, write \x27varies\x27. If no numeric duration is provided, write \x27Not specified\x27. Max 100 words.\",
            \"severity\": \"Low\" or \"Medium\" or \"High\"
        \x7d,
        \"overall_privacy_risk\": \"Low\" or \"Medium\" or \"High\"
    \x7d

    STRICT RULES:
    - Each \x27details\x27 field MUST NOT exceed 100 words.
    - Do NOT add explanations outside the JSON.
    - Apply the conservative rules above; default to MEDIUM when in doubt.
    "

/-- Model of `create_analysis_prompt`: the system rubric message followed by
the user message `f"\x7bdelimiter\x7d\x7bpolicy_text\x7d\x7bdelimiter\x7d"`. -/
def create_analysis_prompt (policy_text : String) : List Message :=
  [⟨"system", system_message⟩, ⟨"user", delimiter ++ policy_text ++ delimiter⟩]

/-- Recover the text between the 4-character delimiters of the user message
(formalizing the round-trip part of the PromptBuilder contract). -/
def recoverBetween (s : String) : String :=
  ⟨(s.data.drop 4).take (s.data.length - 8)⟩

/-- The argument record of one `client.chat.completions.create` call as
assembled by `get_completion_from_messages`. -/
structure CompletionRequest where
  model : String
  messages : List Message
  temperature : Nat
  top_p : Nat
  seed : Nat
deriving Repr, DecidableEq

/-- Model of `get_completion_from_messages`: the request it hands to the
OpenAI client (`temperature=0, top_p=1, seed=42`).  The network call itself is
an oracle argument of `lambda_handler`. -/
def get_completion_from_messages (messages : List Message) (model : String) :
    CompletionRequest :=
  { model := model, messages := messages, temperature := 0, top_p := 1, seed := 42 }

/-- Model of `re.search(r'\x7b.*\x7d', s, re.DOTALL)`: the greedy match from the
first `\x7b` to the last `\x7d`, `none` when no `\x7d` follows the first `\x7b`. -/
def extractBraced (cs : List Char) : Option (List Char) :=
  let t := cs.dropWhile (fun c => c != '{')
  let r := (t.reverse.dropWhile (fun c => c != '}')).reverse
  if r.isEmpty then none else some r

/-- Model of the response-recovery parsing in `lambda_handler` (lines
204-213): strict `json.loads` of the raw reply; on failure, `json.loads` of
the greedy brace-delimited substring; `ValueError` when no such substring
exists.  Parse errors on the substring propagate like the `JSONDecodeError`
they are in Python. -/
def parseModelResponse (rawText : String) : Except String Json :=
  match json_loads rawText with
  | .ok v => .ok v
  | .error _ =>
    match extractBraced rawText.data with
    | some m => json_loads ⟨m⟩
    | none => .error "OpenAI response is not valid JSON"

/-- One category of the normalization at lines 219-230:
`analysis_result.get(key, \x7b\x7d).get("details", "Not specified")` and
`.get("severity", "Unknown")`, with Python's `AttributeError` on non-dicts. -/
def getCategory (analysis_result : Json) (key : String) : Except String (Json × Json) :=
  match pyGet analysis_result key (Json.obj []) with
  | .error e => .error e
  | .ok entry =>
    match pyGet entry "details" (Json.str "Not specified") with
    | .error e => .error e
    | .ok d =>
      match pyGet entry "severity" (Json.str "Unknown") with
      | .error e => .error e
      | .ok s => .ok (d, s)

/-- The value a category field normalizes to when the parsed object is
`Json.obj kvs` and the category entry, if present, is an object: the stored
field when present, the default otherwise. -/
def catField (kvs : List (String × Json)) (c k : String) (d : Json) : Json :=
  match (assocLast kvs c).getD (Json.obj []) with
  | .obj es => (assocLast es k).getD d
  | _ => d

/-- Model of the `response_body` construction of `lambda_handler` (lines
216-233), the ResultNormalizer: builds the success body, or fails with the
`AttributeError` Python raises when the parsed object or a present category
entry is not a dict. -/
def normalize_response (analysis_result : Json) : Except String Json :=
  match getCategory analysis_result "data_collecting" with
  | .error e => .error e
  | .ok (dcD, dcS) =>
    match getCategory analysis_result "data_sharing" with
    | .error e => .error e
    | .ok (dsD, dsS) =>
      match getCategory analysis_result "data_retention" with
      | .error e => .error e
      | .ok (drD, drS) =>
        match pyGet analysis_result "overall_privacy_risk" (Json.str "Unknown") with
        | .error e => .error e
        | .ok ov =>
          .ok (Json.obj
            [("status", Json.str "success"),
             ("summary", Json.obj
               [("data_collecting", Json.obj [("details", dcD), ("severity", dcS)]),
                ("data_sharing", Json.obj [("details", dsD), ("severity", dsS)]),
                ("data_retention", Json.obj [("details", drD), ("severity", drS)]),
                ("overall_privacy_risk", ov)])])

/-- The severity the normalized result carries for category `c`, read back
out of the `Except`-wrapped response body (a spec-side accessor). -/
def summarySeverity (res : Except String Json) (c : String) : Option Json :=
  match res with
  | .error _ => none
  | .ok out =>
    match Json.lookup out "summary" with
    | none => none
    | some sm =>
      match Json.lookup sm c with
      | none => none
      | some cj => Json.lookup cj "severity"

/-- The `overall_privacy_risk` of a normalized response body. -/
def summaryOverall (out : Json) : Option Json :=
  (Json.lookup out "summary").bind (fun sm => Json.lookup sm "overall_privacy_risk")

/-- The API Gateway event as far as `lambda_handler` reads it: the HTTP
method (from `requestContext.http.method`, when present) and the `body`
value, where a raw string body is `some (Json.str s)` and an absent or
`None` body is `none`. -/
structure Event where
  httpMethod : Option String
  body : Option Json

/-- Model of `parse_request_body`: a string body is `json.loads`-parsed with
`JSONDecodeError` mapped to `\x7b\x7d`, `None`/absent becomes `\x7b\x7d`, anything else
passes through. -/
def parse_request_body (body : Option Json) : Json :=
  match body with
  | none => Json.obj []
  | some Json.null => Json.obj []
  | some (Json.str s) =>
    match json_loads s with
    | .ok v => v
    | .error _ => Json.obj []
  | some b => b

/-- Model of `(body.get("policy_text") or "").strip()` (line 175), including
the `AttributeError`s Python raises when `body` is not a dict or the truthy
field value is not a string. -/
def extract_policy_text (body : Json) : Except String String :=
  match body with
  | .obj kvs =>
    let v := (assocLast kvs "policy_text").getD Json.null
    let v' := if pyTruthy v then v else Json.str ""
    match v' with
    | .str s => .ok (pyStrip s)
    | _ => .error "AttributeError: object has no attribute strip"
  | _ => .error "AttributeError: object has no attribute get"

/-- What `lambda_handler` returns: status code, headers and the (parsed)
JSON response body; the OPTIONS preflight's empty string body is `.str ""`. -/
structure Response where
  statusCode : Nat
  headers : List (String × String)
  body : Json
deriving Repr

/-- The common CORS headers of `lambda_handler`. -/
def cors_headers : List (String × String) :=
  [("Content-Type", "application/json"),
   ("Access-Control-Allow-Origin", "*"),
   ("Access-Control-Allow-Methods", "POST, OPTIONS"),
   ("Access-Control-Allow-Headers", "Content-Type, Authorization, X-Amz-Date, X-Api-Key")]

/-- The CORS preflight response (lines 152-162). -/
def optionsResponse : Response :=
  { statusCode := 200,
    headers :=
      [("Access-Control-Allow-Origin", "*"),
       ("Access-Control-Allow-Methods", "POST, OPTIONS"),
       ("Access-Control-Allow-Headers", "Content-Type, Authorization, X-Amz-Date, X-Api-Key"),
       ("Access-Control-Max-Age", "300")],
    body := Json.str "" }

/-- The 400 validation-failure response (lines 179-186). -/
def validationErrorResponse : Response :=
  { statusCode := 400,
    headers := cors_headers,
    body := Json.obj
      [("message", Json.str "Missing required field: policy_text"),
       ("status", Json.str "error")] }

/-- The 500 response of the catch-all `except` block (lines 247-255). -/
def errorResponse (detail : String) : Response :=
  { statusCode := 500,
    headers := cors_headers,
    body := Json.obj
      [("message", Json.str "Error analyzing privacy policy"),
       ("error", Json.str detail),
       ("status", Json.str "error")] }

/-- Model of `lambda_handler`.  `oracle` stands for the OpenAI completion
call; the returned list records every `CompletionRequest` the handler issued
(so "never invokes the completion service" is `= []`).  Every failure of the
`try` block surfaces as `errorResponse`. -/
def lambda_handler (event : Event) (oracle : CompletionRequest → Except String String) :
    Response × List CompletionRequest :=
  if event.httpMethod = some "OPTIONS" then (optionsResponse, [])
  else
    let body := parse_request_body event.body
    match extract_policy_text body with
    | .error e => (errorResponse e, [])
    | .ok policy_text =>
      if policy_text = "" then (validationErrorResponse, [])
      else
        let messages := create_analysis_prompt policy_text
        let req := get_completion_from_messages messages "gpt-5.1"
        match oracle req with
        | .error e => (errorResponse e, [req])
        | .ok rawText =>
          match parseModelResponse rawText with
          | .error e => (errorResponse e, [req])
          | .ok analysis_result =>
            match normalize_response analysis_result with
            | .error e => (errorResponse e, [req])
            | .ok response_body => ({ statusCode := 200, headers := cors_headers, body := response_body }, [req])

/-- The first failure, if any, of the post-validation pipeline
(completion call, recovery parsing, normalization) on a given request. -/
def pipelineFailure (oracle : CompletionRequest → Except String String)
    (req : CompletionRequest) : Option String :=
  match oracle req with
  | .error e => some e
  | .ok rawText =>
    match parseModelResponse rawText with
    | .error e => some e
    | .ok analysis_result =>
      match normalize_response analysis_result with
      | .error e => some e
      | .ok _ => none

lemma dropWhile_append_all {p : Char → Bool} {l₁ l₂ : List Char} (h : ∀ a ∈ l₁, p a = true) :
    (l₁ ++ l₂).dropWhile p = l₂.dropWhile p := by
  induction l₁ with
  | nil => rfl
  | cons a l ih =>
    rw [List.cons_append, List.dropWhile_cons, if_pos (h a (List.mem_cons_self a l))]
    exact ih (fun b hb => h b (List.mem_cons_of_mem a hb))

lemma dropWhile_head_false {p : Char → Bool} {l : List Char} {a : Char} {r : List Char}
    (h : l.dropWhile p = a :: r) : p a = false := by
  induction l with
  | nil => simp [List.dropWhile] at h
  | cons x xs ih =>
    rw [List.dropWhile_cons] at h
    cases hx : p x with
    | true => rw [hx] at h; simp at h; exact ih h
    | false =>
      rw [hx] at h
      simp at h
      rw [← h.1]
      exact hx

lemma eq_of_bne_false {a b : Char} (h : (a != b) = false) : a = b := by
  by_contra hne
  rw [bne_iff_ne.mpr hne] at h
  cases h

/-- If the input decomposes as brace-free prefix, a block starting with an
opening brace and ending with a closing brace, and a suffix free of closing
braces, then the greedy regex extracts exactly that block. -/
lemma extractBraced_of_split {pfx m sfx : List Char}
    (hp : ∀ c ∈ pfx, c ≠ '{') (hs : ∀ c ∈ sfx, c ≠ '}')
    (hm1 : m.head? = some '{') (hm2 : m.getLast? = some '}') :
    extractBraced (pfx ++ (m ++ sfx)) = some m := by
  obtain ⟨m', rfl⟩ : ∃ m', m = '{' :: m' := by
    cases m with
    | nil => simp at hm1
    | cons a t =>
      simp only [List.head?] at hm1
      exact ⟨t, by rw [Option.some.inj hm1]⟩
  have ht : (pfx ++ ('{' :: m' ++ sfx)).dropWhile (fun c => c != '{') = '{' :: m' ++ sfx := by
    rw [dropWhile_append_all (fun a ha => bne_iff_ne.mpr (hp a ha))]
    rw [List.cons_append, List.dropWhile_cons, if_neg (by decide)]
  obtain ⟨w, hw⟩ : ∃ w, ('{' :: m').reverse = '}' :: w := by
    have hh := List.head?_reverse ('{' :: m')
    rw [hm2] at hh
    cases hrv : ('{' :: m').reverse with
    | nil => rw [hrv] at hh; simp at hh
    | cons a t =>
      rw [hrv] at hh
      simp only [List.head?] at hh
      exact ⟨t, by rw [Option.some.inj hh]⟩
  have hu : (('{' :: m' ++ sfx).reverse).dropWhile (fun c => c != '}') = ('{' :: m').reverse := by
    rw [List.reverse_append,
      dropWhile_append_all (fun a ha => bne_iff_ne.mpr (hs a (List.mem_reverse.mp ha)))]
    rw [hw, List.dropWhile_cons, if_neg (by decide)]
  simp only [extractBraced, ht, hu, List.reverse_reverse, List.isEmpty_cons,
    Bool.false_eq_true, if_false]

/-- Conversely, a successful greedy extraction decomposes the input into a
brace-free prefix, the extracted block (which starts with `\x7b` and ends with
`\x7d`), and a suffix free of closing braces. -/
lemma split_of_extractBraced {cs m : List Char} (h : extractBraced cs = some m) :
    ∃ pfx sfx, cs = pfx ++ (m ++ sfx) ∧ (∀ c ∈ pfx, c ≠ '{') ∧ (∀ c ∈ sfx, c ≠ '}') ∧
      m.head? = some '{' ∧ m.getLast? = some '}' := by
  unfold extractBraced at h
  by_cases hne : ((cs.dropWhile (fun c => c != '{')).reverse.dropWhile
      (fun c => c != '}')).reverse.isEmpty
  · rw [if_pos hne] at h; cases h
  · rw [if_neg hne] at h
    have hm : ((cs.dropWhile (fun c => c != '{')).reverse.dropWhile
        (fun c => c != '}')).reverse = m := Option.some.inj h
    have hmne : m ≠ [] := by
      intro hnil
      rw [hm, hnil] at hne
      exact hne rfl
    have h2 : (cs.dropWhile (fun c => c != '{')).reverse.takeWhile (fun c => c != '}') ++
        (cs.dropWhile (fun c => c != '{')).reverse.dropWhile (fun c => c != '}') =
        (cs.dropWhile (fun c => c != '{')).reverse :=
      List.takeWhile_append_dropWhile _ _
    have h3 : cs.dropWhile (fun c => c != '{') =
        m ++ ((cs.dropWhile (fun c => c != '{')).reverse.takeWhile (fun c => c != '}')).reverse := by
      have := congrArg List.reverse h2
      rw [List.reverse_append, List.reverse_reverse, hm] at this
      exact this.symm
    refine ⟨cs.takeWhile (fun c => c != '{'),
      ((cs.dropWhile (fun c => c != '{')).reverse.takeWhile (fun c => c != '}')).reverse,
      ?_, ?_, ?_, ?_, ?_⟩
    · rw [← h3, List.takeWhile_append_dropWhile]
    · intro c hc
      exact bne_iff_ne.mp (List.mem_takeWhile_imp (p := fun x => x != '{') hc)
    · intro c hc
      exact bne_iff_ne.mp
        (List.mem_takeWhile_imp (p := fun x => x != '}') (List.mem_reverse.mp hc))
    · have hd : cs.dropWhile (fun c => c != '{') ≠ [] := by
        rw [h3]
        intro hnil
        exact hmne (List.append_eq_nil.mp hnil).1
      cases hdw : cs.dropWhile (fun c => c != '{') with
      | nil => exact absurd hdw hd
      | cons a t =>
        have ha : a = '{' :=
          eq_of_bne_false (dropWhile_head_false (p := fun x => x != '{') hdw)
        have hh : m.head? = some a := by
          rw [← @List.head?_append_of_ne_nil Char m
              ((cs.dropWhile (fun c => c != '{')).reverse.takeWhile
                (fun c => c != '}')).reverse hmne,
            ← h3, hdw]
          rfl
        rw [hh, ha]
    · rw [← hm, List.getLast?_reverse]
      cases hu : (cs.dropWhile (fun c => c != '{')).reverse.dropWhile (fun c => c != '}') with
      | nil =>
        exfalso
        apply hmne
        rw [← hm, hu]
        rfl
      | cons a t =>
        have ha : a = '}' :=
          eq_of_bne_false (dropWhile_head_false (p := fun x => x != '}') hu)
        rw [ha]
        rfl

/-- C3: the ResponseRecoveryParser first attempts strict JSON parsing of the
whole raw text; on failure it parses exactly the substring from the first
opening brace to the last closing brace (the greedy regex match); and when no
such substring exists the call fails with the `ValueError` the code raises in
place of the spec's `MalformedModelOutput`, producing no result. -/
theorem C3_recovery_algorithm (raw : String) :
    (∀ v, json_loads raw = .ok v → parseModelResponse raw = .ok v) ∧
    (∀ e, json_loads raw = .error e →
      (∀ m pfx sfx, raw.data = pfx ++ (m ++ sfx) → (∀ c ∈ pfx, c ≠ '{') →
        (∀ c ∈ sfx, c ≠ '}') → m.head? = some '{' → m.getLast? = some '}' →
        parseModelResponse raw = json_loads ⟨m⟩) ∧
      ((∀ m pfx sfx, ¬(raw.data = pfx ++ (m ++ sfx) ∧ (∀ c ∈ pfx, c ≠ '{') ∧
          (∀ c ∈ sfx, c ≠ '}') ∧ m.head? = some '{' ∧ m.getLast? = some '}')) →
        parseModelResponse raw = .error "OpenAI response is not valid JSON")) := by
  constructor
  · intro v hv
    unfold parseModelResponse
    rw [hv]
  · intro e he
    constructor
    · intro m pfx sfx hsplit hp hs h1 h2
      have hEB : extractBraced raw.data = some m := by
        rw [hsplit]
        exact extractBraced_of_split hp hs h1 h2
      unfold parseModelResponse
      rw [he, hEB]
    · intro hno
      unfold parseModelResponse
      rw [he]
      cases hEB : extractBraced raw.data with
      | none => rfl
      | some m =>
        obtain ⟨pfx, sfx, ha, hb, hc, hd, hee⟩ := split_of_extractBraced hEB
        exact absurd ⟨ha, hb, hc, hd, hee⟩ (hno m pfx sfx)

/-- Witness for C3: on `"x\x7b\x7dy"` strict parsing fails and recovery parses
exactly the braced substring; on `"no json here"` (no braced substring) the
parser fails with the code's `ValueError` message. -/
theorem C3_recovery_algorithm_witness :
    parseModelResponse "x\x7b\x7dy" = json_loads "\x7b\x7d" ∧
    parseModelResponse "no json here" = .error "OpenAI response is not valid JSON" := by
  constructor
  · exact ((C3_recovery_algorithm "x\x7b\x7dy").2 "Expecting value" rfl).1
      ['{', '}'] ['x'] ['y'] rfl (by decide) (by decide) rfl rfl
  · refine ((C3_recovery_algorithm "no json here").2 "Expecting value" rfl).2 ?_
    intro m pfx sfx hcontra
    obtain ⟨h1, -, -, h4, -⟩ := hcontra
    have hmem : '{' ∈ "no json here".data := by
      rw [h1]
      cases m with
      | nil => simp at h4
      | cons a t =>
        simp only [List.head?] at h4
        rw [← Option.some.inj h4]
        simp
    exact absurd hmem (by decide)

/-- C4: a raw reply consisting of a well-formed JSON object wrapped in
brace-free prose (so that strict whole-text parsing fails) is recovered via
the braced substring, yielding exactly the result of parsing the embedded
object directly. -/
theorem C4_prose_wrapped_equivalence (pre objStr post : String) (v : Json) (e : String)
    (hpre1 : ∀ c ∈ pre.data, c ≠ '{') (hpre2 : ∀ c ∈ pre.data, c ≠ '}')
    (hpost1 : ∀ c ∈ post.data, c ≠ '{') (hpost2 : ∀ c ∈ post.data, c ≠ '}')
    (hhead : objStr.data.head? = some '{') (hlast : objStr.data.getLast? = some '}')
    (hobj : json_loads objStr = .ok v)
    (hstrict : json_loads (pre ++ objStr ++ post) = .error e) :
    parseModelResponse (pre ++ objStr ++ post) = .ok v ∧
    parseModelResponse (pre ++ objStr ++ post) = json_loads objStr := by
  have hdata : (pre ++ objStr ++ post).data = pre.data ++ (objStr.data ++ post.data) := by
    rw [String.data_append, String.data_append, List.append_assoc]
  have hEB : extractBraced (pre ++ objStr ++ post).data = some objStr.data := by
    rw [hdata]
    exact extractBraced_of_split hpre1 hpost2 hhead hlast
  have hrec : parseModelResponse (pre ++ objStr ++ post) = json_loads ⟨objStr.data⟩ := by
    unfold parseModelResponse
    rw [hstrict, hEB]
  have hmk : (⟨objStr.data⟩ : String) = objStr := by
    cases objStr
    rfl
  rw [hmk] at hrec
  exact ⟨hrec.trans hobj, hrec⟩

def preW : String := "Here is the result: "
def objW : String := "\x7b\"a\": 1\x7d"
def postW : String := " Thanks."

/-- Witness for C4 at a concrete prose-wrapped reply. -/
theorem C4_prose_wrapped_equivalence_witness :
    parseModelResponse (preW ++ objW ++ postW) = .ok (Json.obj [("a", Json.num "1")]) ∧
    parseModelResponse (preW ++ objW ++ postW) = json_loads objW :=
  C4_prose_wrapped_equivalence preW objW postW (Json.obj [("a", Json.num "1")])
    "Expecting value" (by decide) (by decide) (by decide) (by decide) rfl rfl rfl rfl

/-- C5: for non-empty policy text the PromptBuilder emits exactly two
messages, system first, then a user message whose content is the delimiter,
the exact bytes of the policy text, and the delimiter again; the policy text
is recoverable verbatim from between the delimiters. -/
theorem C5_prompt_roundtrip (policy_text : String) (hne : policy_text ≠ "") :
    (create_analysis_prompt policy_text).length = 2 ∧
    (create_analysis_prompt policy_text).head? = some ⟨"system", system_message⟩ ∧
    (create_analysis_prompt policy_text).get? 1 =
      some ⟨"user", delimiter ++ policy_text ++ delimiter⟩ ∧
    (delimiter ++ policy_text ++ delimiter).data =
      delimiter.data ++ policy_text.data ++ delimiter.data ∧
    recoverBetween (delimiter ++ policy_text ++ delimiter) = policy_text := by
  refine ⟨rfl, rfl, rfl, ?_, ?_⟩
  · rw [String.data_append, String.data_append]
  · unfold recoverBetween
    have hd : (delimiter ++ policy_text ++ delimiter).data =
        delimiter.data ++ (policy_text.data ++ delimiter.data) := by
      rw [String.data_append, String.data_append, List.append_assoc]
    rw [hd]
    have h4 : delimiter.data.length = 4 := rfl
    have hdrop : (delimiter.data ++ (policy_text.data ++ delimiter.data)).drop 4 =
        policy_text.data ++ delimiter.data := by
      rw [← h4, List.drop_left]
    have hlen : (delimiter.data ++ (policy_text.data ++ delimiter.data)).length - 8 =
        policy_text.data.length := by
      simp only [List.length_append, h4]
      omega
    rw [hdrop, hlen, List.take_left]

/-- Witness for C5 at `policy_text = "abc"`. -/
theorem C5_prompt_roundtrip_witness :
    (create_analysis_prompt "abc").length = 2 ∧
    (create_analysis_prompt "abc").head? = some ⟨"system", system_message⟩ ∧
    (create_analysis_prompt "abc").get? 1 = some ⟨"user", delimiter ++ "abc" ++ delimiter⟩ ∧
    (delimiter ++ "abc" ++ delimiter).data =
      delimiter.data ++ "abc".data ++ delimiter.data ∧
    recoverBetween (delimiter ++ "abc" ++ delimiter) = "abc" :=
  C5_prompt_roundtrip "abc" (by decide)

/-- C2: when the parsed request body is an object whose `policy_text` field
is absent, null, or a whitespace-only string, the handler returns the
validation-failure response (whose body carries `status = "error"` and
`message = "Missing required field: policy_text"`) and issues no completion
request. -/
theorem C2_empty_input_validation (event : Event)
    (oracle : CompletionRequest → Except String String) (kvs : List (String × Json))
    (hm : event.httpMethod ≠ some "OPTIONS")
    (hb : parse_request_body event.body = Json.obj kvs)
    (hpt : assocLast kvs "policy_text" = none ∨ assocLast kvs "policy_text" = some Json.null ∨
      ∃ s, assocLast kvs "policy_text" = some (Json.str s) ∧ pyStrip s = "") :
    lambda_handler event oracle = (validationErrorResponse, []) ∧
    Json.lookup validationErrorResponse.body "status" = some (Json.str "error") ∧
    Json.lookup validationErrorResponse.body "message" =
      some (Json.str "Missing required field: policy_text") := by
  have hpt0 : extract_policy_text (Json.obj kvs) = .ok "" := by
    simp only [extract_policy_text]
    rcases hpt with h | h | ⟨s, h, hs⟩
    · rw [h]
      rfl
    · rw [h]
      rfl
    · rw [h]
      by_cases hs0 : s = ""
      · subst hs0
        rfl
      · have htr : pyTruthy (Json.str s) = true := bne_iff_ne.mpr hs0
        rw [Option.getD_some, htr]
        simp only [if_true]
        rw [hs]
  refine ⟨?_, rfl, rfl⟩
  simp only [lambda_handler, if_neg hm, hb, hpt0]
  rfl

def emptyOracle : CompletionRequest → Except String String := fun _ => .ok ""

def ev2 : Event := ⟨none, some (Json.str "\x7b\"policy_text\": \"   \"\x7d")⟩

/-- Witness for C2 at a whitespace-only `policy_text`. -/
theorem C2_empty_input_validation_witness :
    lambda_handler ev2 emptyOracle = (validationErrorResponse, []) :=
  (C2_empty_input_validation ev2 emptyOracle [("policy_text", Json.str "   ")]
    (by decide) rfl (Or.inr (Or.inr ⟨"   ", rfl, rfl⟩))).1

/-- C10: a string request body that is not valid JSON — and likewise an
absent body — is parsed to the empty object, so the handler reports the
missing-field validation failure and never invokes the completion service. -/
theorem C10_malformed_body (s e : String) (m : Option String)
    (oracle : CompletionRequest → Except String String)
    (hm : m ≠ some "OPTIONS") (hs : json_loads s = .error e) :
    parse_request_body (some (Json.str s)) = Json.obj [] ∧
    parse_request_body none = Json.obj [] ∧
    lambda_handler ⟨m, some (Json.str s)⟩ oracle = (validationErrorResponse, []) ∧
    lambda_handler ⟨m, none⟩ oracle = (validationErrorResponse, []) := by
  have h1 : parse_request_body (some (Json.str s)) = Json.obj [] := by
    simp only [parse_request_body]
    rw [hs]
  refine ⟨h1, rfl, ?_, ?_⟩
  · simp only [lambda_handler, if_neg hm, h1]
    rfl
  · simp only [lambda_handler, if_neg hm]
    rfl

/-- Witness for C10 at the malformed body `"not json"`. -/
theorem C10_malformed_body_witness :
    parse_request_body (some (Json.str "not json")) = Json.obj [] ∧
    parse_request_body none = Json.obj [] ∧
    lambda_handler ⟨none, some (Json.str "not json")⟩ emptyOracle =
      (validationErrorResponse, []) ∧
    lambda_handler ⟨none, none⟩ emptyOracle = (validationErrorResponse, []) :=
  C10_malformed_body "not json" "Expecting value" none emptyOracle (by decide) rfl

lemma handler_requests (event : Event) (oracle : CompletionRequest → Except String String) :
    (lambda_handler event oracle).2 = [] ∨
    ∃ pt, pt ≠ "" ∧ extract_policy_text (parse_request_body event.body) = .ok pt ∧
      (lambda_handler event oracle).2 =
        [get_completion_from_messages (create_analysis_prompt pt) "gpt-5.1"] := by
  by_cases hm : event.httpMethod = some "OPTIONS"
  · left
    simp only [lambda_handler, if_pos hm]
  · cases hpt : extract_policy_text (parse_request_body event.body) with
    | error e =>
      left
      simp only [lambda_handler, if_neg hm, hpt]
    | ok pt =>
      by_cases hne : pt = ""
      · left
        subst hne
        simp only [lambda_handler, if_neg hm, hpt]
        rfl
      · right
        refine ⟨pt, hne, rfl, ?_⟩
        simp only [lambda_handler, if_neg hm, hpt, if_neg hne]
        split
        · rfl
        · split
          · rfl
          · split
            · rfl
            · rfl

/-- C7: every completion request the handler issues carries the
deterministic sampling parameters `temperature = 0`, `top_p = 1` and
`seed = 42`, the model identifier `gpt-5.1`, and the MessageSequence built by
the PromptBuilder from the validated policy text. -/
theorem C7_deterministic_params (event : Event)
    (oracle : CompletionRequest → Except String String) (req : CompletionRequest)
    (h : req ∈ (lambda_handler event oracle).2) :
    req.temperature = 0 ∧ req.top_p = 1 ∧ req.seed = 42 ∧ req.model = "gpt-5.1" ∧
    ∃ policy_text, policy_text ≠ "" ∧ req.messages = create_analysis_prompt policy_text := by
  rcases handler_requests event oracle with hr | ⟨pt, hne, -, hr⟩
  · rw [hr] at h
    cases h
  · rw [hr] at h
    have hreq : req = get_completion_from_messages (create_analysis_prompt pt) "gpt-5.1" := by
      simpa using h
    rw [hreq]
    exact ⟨rfl, rfl, rfl, rfl, pt, hne, rfl⟩

def ev7 : Event := ⟨none, some (Json.str "\x7b\"policy_text\": \"hi\"\x7d")⟩

def okOracle : CompletionRequest → Except String String := fun _ => .ok "\x7b\x7d"

/-- Witness for C7: the single request issued on a well-formed input has the
deterministic parameters. -/
theorem C7_deterministic_params_witness :
    (get_completion_from_messages (create_analysis_prompt "hi") "gpt-5.1").temperature = 0 ∧
    (get_completion_from_messages (create_analysis_prompt "hi") "gpt-5.1").top_p = 1 ∧
    (get_completion_from_messages (create_analysis_prompt "hi") "gpt-5.1").seed = 42 ∧
    (get_completion_from_messages (create_analysis_prompt "hi") "gpt-5.1").model = "gpt-5.1" :=
  have h := C7_deterministic_params ev7 okOracle
    (get_completion_from_messages (create_analysis_prompt "hi") "gpt-5.1")
    (by rw [show (lambda_handler ev7 okOracle).2 =
          [get_completion_from_messages (create_analysis_prompt "hi") "gpt-5.1"] from rfl]
        exact List.mem_singleton.mpr rfl)
  ⟨h.1, h.2.1, h.2.2.1, h.2.2.2.1⟩

/-- C9: once validation has succeeded, the handler issues exactly one
completion request (no retry), and the first failure anywhere in the
post-validation pipeline — completion call, recovery parsing, normalization —
is caught and converted into the 500 response whose body carries
`status = "error"`, `message = "Error analyzing privacy policy"` and the
failure detail under `error`; when nothing fails the handler responds 200. -/
theorem C9_error_boundary (event : Event)
    (oracle : CompletionRequest → Except String String) (pt : String)
    (hm : event.httpMethod ≠ some "OPTIONS")
    (hpt : extract_policy_text (parse_request_body event.body) = .ok pt)
    (hne : pt ≠ "") :
    (lambda_handler event oracle).2 =
      [get_completion_from_messages (create_analysis_prompt pt) "gpt-5.1"] ∧
    (∀ e, pipelineFailure oracle
        (get_completion_from_messages (create_analysis_prompt pt) "gpt-5.1") = some e →
      (lambda_handler event oracle).1 = errorResponse e ∧
      Json.lookup (errorResponse e).body "status" = some (Json.str "error") ∧
      Json.lookup (errorResponse e).body "message" =
        some (Json.str "Error analyzing privacy policy") ∧
      Json.lookup (errorResponse e).body "error" = some (Json.str e)) ∧
    (pipelineFailure oracle
        (get_completion_from_messages (create_analysis_prompt pt) "gpt-5.1") = none →
      (lambda_handler event oracle).1.statusCode = 200) := by
  simp only [lambda_handler, if_neg hm, hpt, if_neg hne, pipelineFailure]
  split
  · refine ⟨rfl, ?_, ?_⟩
    · intro e he
      rw [Option.some.inj he]
      exact ⟨rfl, rfl, rfl, rfl⟩
    · intro hnone
      cases hnone
  · split
    · refine ⟨rfl, ?_, ?_⟩
      · intro e he
        rw [Option.some.inj he]
        exact ⟨rfl, rfl, rfl, rfl⟩
      · intro hnone
        cases hnone
    · split
      · refine ⟨rfl, ?_, ?_⟩
        · intro e he
          rw [Option.some.inj he]
          exact ⟨rfl, rfl, rfl, rfl⟩
        · intro hnone
          cases hnone
      · refine ⟨rfl, ?_, fun _ => rfl⟩
        intro e he
        cases he

def boomOracle : CompletionRequest → Except String String := fun _ => .error "boom"

/-- Witness for C9: a failing completion call yields exactly one request and
the converted 500 error response. -/
theorem C9_error_boundary_witness :
    (lambda_handler ev7 boomOracle).2 =
      [get_completion_from_messages (create_analysis_prompt "hi") "gpt-5.1"] ∧
    (lambda_handler ev7 boomOracle).1 = errorResponse "boom" :=
  have h := C9_error_boundary ev7 boomOracle "hi" (by decide) rfl (by decide)
  ⟨h.1, (h.2.1 "boom" rfl).1⟩

/-- Whether the entry stored at a category key, if present, is an object —
the condition under which Python's chained `.get` calls cannot raise. -/
def catEntryOkB (kvs : List (String × Json)) (c : String) : Bool :=
  match assocLast kvs c with
  | none => true
  | some e => e.isObj

/-- The summary object the normalizer builds from an object-shaped parsed
reply whose category entries are objects when present. -/
def summaryForm (kvs : List (String × Json)) : Json :=
  Json.obj
    [("data_collecting", Json.obj
       [("details", catField kvs "data_collecting" "details" (Json.str "Not specified")),
        ("severity", catField kvs "data_collecting" "severity" (Json.str "Unknown"))]),
     ("data_sharing", Json.obj
       [("details", catField kvs "data_sharing" "details" (Json.str "Not specified")),
        ("severity", catField kvs "data_sharing" "severity" (Json.str "Unknown"))]),
     ("data_retention", Json.obj
       [("details", catField kvs "data_retention" "details" (Json.str "Not specified")),
        ("severity", catField kvs "data_retention" "severity" (Json.str "Unknown"))]),
     ("overall_privacy_risk", (assocLast kvs "overall_privacy_risk").getD (Json.str "Unknown"))]

/-- The full success body the normalizer builds in that case. -/
def normalForm (kvs : List (String × Json)) : Json :=
  Json.obj [("status", Json.str "success"), ("summary", summaryForm kvs)]

lemma getCategory_ok (kvs : List (String × Json)) (c : String)
    (h : catEntryOkB kvs c = true) :
    getCategory (Json.obj kvs) c =
      .ok (catField kvs c "details" (Json.str "Not specified"),
        catField kvs c "severity" (Json.str "Unknown")) := by
  simp only [getCategory, catField, pyGet]
  unfold catEntryOkB at h
  cases he : assocLast kvs c with
  | none => rfl
  | some e =>
    rw [he] at h
    cases e with
    | obj es => rfl
    | null => simp [Json.isObj] at h
    | bool b => simp [Json.isObj] at h
    | num lx => simp [Json.isObj] at h
    | str s => simp [Json.isObj] at h
    | arr items => simp [Json.isObj] at h

lemma normalize_obj_ok (kvs : List (String × Json))
    (h1 : catEntryOkB kvs "data_collecting" = true)
    (h2 : catEntryOkB kvs "data_sharing" = true)
    (h3 : catEntryOkB kvs "data_retention" = true) :
    normalize_response (Json.obj kvs) = .ok (normalForm kvs) := by
  unfold normalize_response
  rw [getCategory_ok kvs "data_collecting" h1, getCategory_ok kvs "data_sharing" h2,
    getCategory_ok kvs "data_retention" h3]
  rfl

lemma getCategory_fail (kvs : List (String × Json)) (c : String) (e : Json)
    (he : assocLast kvs c = some e) (hno : e.isObj = false) :
    getCategory (Json.obj kvs) c = .error "AttributeError: object has no attribute get" := by
  simp only [getCategory, pyGet]
  rw [he]
  cases e with
  | obj es => simp [Json.isObj] at hno
  | null => rfl
  | bool b => rfl
  | num lx => rfl
  | str s => rfl
  | arr items => rfl

lemma catEntryOkB_of_normalize_ok {kvs : List (String × Json)} {out : Json} (c : String)
    (hc : c = "data_collecting" ∨ c = "data_sharing" ∨ c = "data_retention")
    (h : normalize_response (Json.obj kvs) = .ok out) : catEntryOkB kvs c = true := by
  unfold catEntryOkB
  cases he : assocLast kvs c with
  | none => rfl
  | some e =>
    cases hobj : e.isObj with
    | true => exact hobj
    | false =>
      exfalso
      have hfail := getCategory_fail kvs c e he hobj
      unfold normalize_response at h
      rcases hc with rfl | rfl | rfl
      · rw [hfail] at h
        cases h
      · cases hdc : getCategory (Json.obj kvs) "data_collecting" with
        | error e1 => rw [hdc] at h; cases h
        | ok pr1 =>
          rw [hdc, hfail] at h
          cases pr1
          cases h
      · cases hdc : getCategory (Json.obj kvs) "data_collecting" with
        | error e1 => rw [hdc] at h; cases h
        | ok pr1 =>
          cases hds : getCategory (Json.obj kvs) "data_sharing" with
          | error e2 => rw [hdc, hds] at h; cases pr1; cases h
          | ok pr2 =>
            rw [hdc, hds, hfail] at h
            cases pr1
            cases pr2
            cases h

/-- Inversion of a successful normalization: the parsed reply was an object,
its category entries were objects when present, and the output is exactly the
normal form. -/
lemma normalize_ok_inv (p out : Json) (h : normalize_response p = .ok out) :
    ∃ kvs, p = Json.obj kvs ∧ catEntryOkB kvs "data_collecting" = true ∧
      catEntryOkB kvs "data_sharing" = true ∧ catEntryOkB kvs "data_retention" = true ∧
      out = normalForm kvs := by
  cases p with
  | obj kvs =>
    have h1 := catEntryOkB_of_normalize_ok "data_collecting" (Or.inl rfl) h
    have h2 := catEntryOkB_of_normalize_ok "data_sharing" (Or.inr (Or.inl rfl)) h
    have h3 := catEntryOkB_of_normalize_ok "data_retention" (Or.inr (Or.inr rfl)) h
    rw [normalize_obj_ok kvs h1 h2 h3] at h
    exact ⟨kvs, rfl, h1, h2, h3, (Except.ok.inj h).symm⟩
  | null => cases h
  | bool b => cases h
  | num lx => cases h
  | str s => cases h
  | arr items => cases h

/-- Counterexample to C1: on the parsed object `\x7b"data_collecting": null\x7d`
the normalizer does not fall back to defaults — the chained `.get` raises
`AttributeError` (so the handler returns the 500 error response, not a
defaults-filled success). -/
theorem C1_counterexample :
    normalize_response (Json.obj [("data_collecting", Json.null)]) =
      .error "AttributeError: object has no attribute get" := rfl

/-- C1 (amended): when the parsed object is a JSON object whose category
entries, where present, are themselves objects, normalization never fails and
produces the fixed shape: `status = "success"`, a summary containing all
three category keys and `overall_privacy_risk`, with `details` defaulting to
`"Not specified"`, `severity` to `"Unknown"` and the overall risk to
`"Unknown"` exactly when the corresponding entry or field is absent (present
fields pass through unmodified). -/
theorem C1_normalizer_defaults (kvs : List (String × Json))
    (h1 : catEntryOkB kvs "data_collecting" = true)
    (h2 : catEntryOkB kvs "data_sharing" = true)
    (h3 : catEntryOkB kvs "data_retention" = true) :
    normalize_response (Json.obj kvs) = .ok (normalForm kvs) ∧
    Json.lookup (normalForm kvs) "status" = some (Json.str "success") ∧
    Json.lookup (normalForm kvs) "summary" = some (summaryForm kvs) ∧
    (∀ c ∈ ["data_collecting", "data_sharing", "data_retention"],
      Json.lookup (summaryForm kvs) c =
        some (Json.obj
          [("details", catField kvs c "details" (Json.str "Not specified")),
           ("severity", catField kvs c "severity" (Json.str "Unknown"))])) ∧
    Json.lookup (summaryForm kvs) "overall_privacy_risk" =
      some ((assocLast kvs "overall_privacy_risk").getD (Json.str "Unknown")) ∧
    (∀ c ∈ ["data_collecting", "data_sharing", "data_retention"],
      assocLast kvs c = none →
        Json.lookup (summaryForm kvs) c =
          some (Json.obj
            [("details", Json.str "Not specified"), ("severity", Json.str "Unknown")])) ∧
    (∀ c es k d, assocLast kvs c = some (Json.obj es) → assocLast es k = none →
      catField kvs c k d = d) ∧
    (assocLast kvs "overall_privacy_risk" = none →
      Json.lookup (summaryForm kvs) "overall_privacy_risk" = some (Json.str "Unknown")) := by
  refine ⟨normalize_obj_ok kvs h1 h2 h3, rfl, rfl, ?_, rfl, ?_, ?_, ?_⟩
  · intro c hc
    simp only [List.mem_cons, List.not_mem_nil, or_false] at hc
    rcases hc with rfl | rfl | rfl
    · rfl
    · rfl
    · rfl
  · intro c hc hn
    simp only [List.mem_cons, List.not_mem_nil, or_false] at hc
    have hd : ∀ k d, catField kvs c k d = d := by
      intro k d
      rcases hc with rfl | rfl | rfl <;> simp [catField, hn, assocLast]
    rcases hc with rfl | rfl | rfl
    · rw [show Json.lookup (summaryForm kvs) "data_collecting" =
          some (Json.obj
            [("details", catField kvs "data_collecting" "details" (Json.str "Not specified")),
             ("severity", catField kvs "data_collecting" "severity" (Json.str "Unknown"))])
          from rfl, hd, hd]
    · rw [show Json.lookup (summaryForm kvs) "data_sharing" =
          some (Json.obj
            [("details", catField kvs "data_sharing" "details" (Json.str "Not specified")),
             ("severity", catField kvs "data_sharing" "severity" (Json.str "Unknown"))])
          from rfl, hd, hd]
    · rw [show Json.lookup (summaryForm kvs) "data_retention" =
          some (Json.obj
            [("details", catField kvs "data_retention" "details" (Json.str "Not specified")),
             ("severity", catField kvs "data_retention" "severity" (Json.str "Unknown"))])
          from rfl, hd, hd]
  · intro c es k d h1' h2'
    simp [catField, h1', h2']
  · intro hn
    rw [show Json.lookup (summaryForm kvs) "overall_privacy_risk" =
        some ((assocLast kvs "overall_privacy_risk").getD (Json.str "Unknown")) from rfl, hn]
    rfl

def sampleEntries : List (String × Json) :=
  [("data_sharing", Json.obj [("severity", Json.str "High")])]

/-- Witness for the amended C1 at a partially-filled parsed object. -/
theorem C1_normalizer_defaults_witness :
    normalize_response (Json.obj sampleEntries) = .ok (normalForm sampleEntries) :=
  (C1_normalizer_defaults sampleEntries rfl rfl rfl).1

/-- C6: whenever normalization succeeds and the parsed object carries an
`overall_privacy_risk` value, that value is passed through to the summary
unmodified — the core never recomputes the aggregation from the category
severities. -/
theorem C6_overall_passthrough (p out v : Json)
    (h : normalize_response p = .ok out)
    (hov : Json.lookup p "overall_privacy_risk" = some v) :
    summaryOverall out = some v := by
  obtain ⟨kvs, rfl, -, -, -, rfl⟩ := normalize_ok_inv p out h
  have hbase : summaryOverall (normalForm kvs) =
      some ((assocLast kvs "overall_privacy_risk").getD (Json.str "Unknown")) := rfl
  have hov' : assocLast kvs "overall_privacy_risk" = some v := hov
  rw [hbase, hov']
  rfl

def overallEntries : List (String × Json) := [("overall_privacy_risk", Json.str "High")]

/-- Witness for C6: a model-supplied `"High"` overall value survives
normalization unmodified. -/
theorem C6_overall_passthrough_witness :
    summaryOverall (normalForm overallEntries) = some (Json.str "High") :=
  C6_overall_passthrough (Json.obj overallEntries) (normalForm overallEntries)
    (Json.str "High") rfl rfl

def severityEnum : List String := ["Low", "Medium", "High", "Unknown"]

def bananaEntries : List (String × Json) :=
  [("data_collecting", Json.obj [("severity", Json.str "Banana")])]

/-- Counterexample to C8: the model-supplied severity `"Banana"` appears
verbatim in the normalized output although it is outside
\x7bLow, Medium, High, Unknown\x7d. -/
theorem C8_counterexample :
    summarySeverity (normalize_response (Json.obj bananaEntries)) "data_collecting" =
      some (Json.str "Banana") ∧
    severityEnum.contains "Banana" = false := ⟨rfl, rfl⟩

lemma catField_severity_cases (kvs : List (String × Json)) (c : String)
    (h : catEntryOkB kvs c = true) :
    catField kvs c "severity" (Json.str "Unknown") = Json.str "Unknown" ∨
    ∃ es, assocLast kvs c = some (Json.obj es) ∧
      assocLast es "severity" = some (catField kvs c "severity" (Json.str "Unknown")) := by
  unfold catEntryOkB at h
  cases he : assocLast kvs c with
  | none =>
    left
    simp [catField, he, assocLast]
  | some e =>
    rw [he] at h
    cases e with
    | obj es =>
      cases hse : assocLast es "severity" with
      | none =>
        left
        simp [catField, he, hse]
      | some w =>
        right
        exact ⟨es, rfl, by simp [catField, he, hse]⟩
    | null => simp [Json.isObj] at h
    | bool b => simp [Json.isObj] at h
    | num lx => simp [Json.isObj] at h
    | str s => simp [Json.isObj] at h
    | arr items => simp [Json.isObj] at h

lemma summary_severity_source (kvs : List (String × Json)) (c : String) (cj v : Json)
    (hok : catEntryOkB kvs c = true)
    (hc : c = "data_collecting" ∨ c = "data_sharing" ∨ c = "data_retention")
    (hcj : Json.lookup (summaryForm kvs) c = some cj)
    (hv : Json.lookup cj "severity" = some v) :
    v = Json.str "Unknown" ∨
      ∃ es, assocLast kvs c = some (Json.obj es) ∧ assocLast es "severity" = some v := by
  have hv' : v = catField kvs c "severity" (Json.str "Unknown") := by
    rcases hc with rfl | rfl | rfl
    · rw [show Json.lookup (summaryForm kvs) "data_collecting" =
          some (Json.obj
            [("details", catField kvs "data_collecting" "details" (Json.str "Not specified")),
             ("severity", catField kvs "data_collecting" "severity" (Json.str "Unknown"))])
          from rfl] at hcj
      rw [← Option.some.inj hcj] at hv
      exact (Option.some.inj hv).symm
    · rw [show Json.lookup (summaryForm kvs) "data_sharing" =
          some (Json.obj
            [("details", catField kvs "data_sharing" "details" (Json.str "Not specified")),
             ("severity", catField kvs "data_sharing" "severity" (Json.str "Unknown"))])
          from rfl] at hcj
      rw [← Option.some.inj hcj] at hv
      exact (Option.some.inj hv).symm
    · rw [show Json.lookup (summaryForm kvs) "data_retention" =
          some (Json.obj
            [("details", catField kvs "data_retention" "details" (Json.str "Not specified")),
             ("severity", catField kvs "data_retention" "severity" (Json.str "Unknown"))])
          from rfl] at hcj
      rw [← Option.some.inj hcj] at hv
      exact (Option.some.inj hv).symm
    
  subst hv'
  exact catField_severity_cases kvs c hok

/-- C8 (amended): every severity in the normalized output — per-category and
overall — is either the sentinel `"Unknown"` (used when the field is absent)
or the verbatim value the model supplied for that field; the code enforces no
membership in \x7bLow, Medium, High, Unknown\x7d. -/
theorem C8_severity_passthrough (p out sm : Json)
    (h : normalize_response p = .ok out) (hsm : Json.lookup out "summary" = some sm) :
    (∀ c ∈ ["data_collecting", "data_sharing", "data_retention"], ∀ cj v,
      Json.lookup sm c = some cj → Json.lookup cj "severity" = some v →
      v = Json.str "Unknown" ∨
        ∃ es, Json.lookup p c = some (Json.obj es) ∧ assocLast es "severity" = some v) ∧
    (∀ v, Json.lookup sm "overall_privacy_risk" = some v →
      v = Json.str "Unknown" ∨ Json.lookup p "overall_privacy_risk" = some v) := by
  obtain ⟨kvs, rfl, h1, h2, h3, rfl⟩ := normalize_ok_inv p out h
  have hsm' : sm = summaryForm kvs := by
    rw [show Json.lookup (normalForm kvs) "summary" = some (summaryForm kvs) from rfl] at hsm
    exact (Option.some.inj hsm).symm
  subst hsm'
  constructor
  · intro c hc cj v hcj hv
    simp only [List.mem_cons, List.not_mem_nil, or_false] at hc
    have hok : catEntryOkB kvs c = true := by
      rcases hc with rfl | rfl | rfl
      · exact h1
      · exact h2
      · exact h3
    rcases summary_severity_source kvs c cj v hok hc hcj hv with hl | ⟨es, he, hse⟩
    · exact Or.inl hl
    · exact Or.inr ⟨es, he, hse⟩
  · intro v hv
    rw [show Json.lookup (summaryForm kvs) "overall_privacy_risk" =
        some ((assocLast kvs "overall_privacy_risk").getD (Json.str "Unknown")) from rfl] at hv
    have hv' : v = (assocLast kvs "overall_privacy_risk").getD (Json.str "Unknown") :=
      (Option.some.inj hv).symm
    subst hv'
    cases ho : assocLast kvs "overall_privacy_risk" with
    | none => left; rfl
    | some w => right; exact ho

/-- Witness for the amended C8: the `"Banana"` severity in the output is a
verbatim pass-through of the model's value. -/
theorem C8_severity_passthrough_witness :
    Json.str "Banana" = Json.str "Unknown" ∨
    ∃ es, Json.lookup (Json.obj bananaEntries) "data_collecting" = some (Json.obj es) ∧
      assocLast es "severity" = some (Json.str "Banana") :=
  have h := C8_severity_passthrough (Json.obj bananaEntries) (normalForm bananaEntries)
    (summaryForm bananaEntries) rfl rfl
  h.1 "data_collecting" (by decide)
    (Json.obj [("details", Json.str "Not specified"), ("severity", Json.str "Banana")])
    (Json.str "Banana") rfl rfl
